import Mathlib

/-!
Verification of the domain-signal matcher, session-quota orchestration and
schema registry of the Vertex Triage demonstration app (`src/app.py`).

The matcher `_detect_domain_mismatch`, the keyword table `_DOMAIN_SIGNALS`,
the five Pydantic schemas and the `analyze_clicked` handler are embedded
shallowly below.  Python strings become Lean `String`s; `str.lower` becomes
an ASCII character lowering (all keywords in the table are ASCII);
`kw in text` becomes substring (list-infix) containment; the Python `dict`
(insertion-ordered) becomes an ordered list; `max(scores, key=scores.get)`
becomes a left fold that keeps the first maximum (Python's `max` returns the
first maximal element encountered); the `KeyError` that
`_DOMAIN_SIGNALS[selected_sector]` would raise for an unregistered key is
modelled with `Except.error`.  The float comparison
`best_hits >= selected_hits * 1.5` is exact for the small integer scores
involved (n * 1.5 is exactly representable for every score), hence it is
embedded as the equivalent integer comparison `3 * selected ≤ 2 * best`.
-/

namespace VertexTriage

/-- Substring containment on character lists: Python's `needle in haystack`. -/
def containsSub : List Char → List Char → Bool
  | ns, [] => ns.isEmpty
  | ns, c :: cs => ns.isPrefixOf (c :: cs) || containsSub ns cs

/-- `str.lower` restricted to ASCII (every keyword in the table is ASCII);
defined structurally on the character list so that it evaluates by `rfl`. -/
def lowerStr (s : String) : String := String.mk (s.data.map Char.toLower)

/-- Python's `str.strip()`: remove leading and trailing whitespace. -/
def pyStrip (s : String) : String :=
  String.mk (((s.data.dropWhile Char.isWhitespace).reverse.dropWhile
    Char.isWhitespace).reverse)

/-- One entry of `_DOMAIN_SIGNALS`: the sector key, its keyword list and its
human-readable label. -/
structure DomainInfo where
  name : String
  keywords : List String
  label : String
deriving DecidableEq

/-- First-maximum selection: Python's `max(..., key=...)`, which keeps the
earliest element when several attain the maximum (replacement only on a
strictly larger score). -/
def argmaxFirst {α : Type} (f : α → Nat) : α → List α → α
  | acc, [] => acc
  | acc, x :: xs => argmaxFirst f (if f acc < f x then x else acc) xs

/-- `_DOMAIN_SIGNALS["Healthcare (HCLS)"]` from `src/app.py`. -/
def healthcareInfo : DomainInfo :=
  { name := "Healthcare (HCLS)",
    keywords := [
      "patient", "vitals", "bp ", "hr ", "spo2", "triage", "diagnosis",
      "ecg", "nurse", "allergies", "medications", "symptoms", "chief complaint",
      "history of present", "labs", "ems", "er ", "icu", "mg ", "stemi",
      "cardiac", "pulse", "respiratory", "auscultation", "prognosis",
      "discharge", "admission", "radiology", "ct scan", "mri", "cbc",
      "troponin", "bmp", "creatinine", "hemoglobin", "o2 sat", "intubat",
      "clinical", "physician", "medical record", "icd-10", "cpt code"],
    label := "clinical / healthcare" }

/-- `_DOMAIN_SIGNALS["Industrial (Manufacturing)"]` from `src/app.py`. -/
def industrialInfo : DomainInfo :=
  { name := "Industrial (Manufacturing)",
    keywords := [
      "vibration", "bearing", "temperature", "sensor", "compressor",
      "motor", "pressure", "rpm", "scada", "plc", "maintenance",
      "calibration", "pump", "spindle", "err-", "warn-", "telemetry",
      "machine", "conveyor", "hydraulic", "actuator", "downtime",
      "oee", "torque", "overload", "coolant", "cnc", "feed rate"],
    label := "industrial / manufacturing" }

/-- `_DOMAIN_SIGNALS["Cybersecurity (SecOps)"]` from `src/app.py`. -/
def cybersecurityInfo : DomainInfo :=
  { name := "Cybersecurity (SecOps)",
    keywords := [
      "siem", "alert", "login", "ssh", "credential", "malware", "ip ",
      "firewall", "endpoint", "lateral movement", "exfiltrat", "cve-",
      "mitre", "threat", "ioc", "phishing", "brute force", "xdr", "edr",
      "ransomware", "payload", "c2 ", "command and control", "privilege escalation",
      "hash", "dns", "port scan", "intrusion", "signature", "zero day",
      "exploit", "trojan", "backdoor", "beacon", "cobalt strike"],
    label := "cybersecurity / SecOps" }

/-- `_DOMAIN_SIGNALS["Financial Services (FinOps)"]` from `src/app.py`. -/
def financialInfo : DomainInfo :=
  { name := "Financial Services (FinOps)",
    keywords := [
      "transaction", "wire", "aml", "fraud", "sar", "kyc", "beneficiary",
      "originator", "ofac", "sanctions", "structuring", "pep",
      "account", "suspicious", "usd", "bank", "compliance",
      "settlement", "clearing", "counterparty", "custody", "trade",
      "equit", "derivative", "portfolio", "dividend", "coupon",
      "reconcil", "ledger", "swift", "iban", "bic", "nostro", "vostro",
      "collateral", "margin call", "exposure", "netting", "exception",
      "payment", "remittance", "forex", "fx ", "basis point", "t+1", "t+2",
      "broker", "dealer", "finra", "sec ", "regulatory", "fiduciary"],
    label := "financial / AML" }

/-- `_DOMAIN_SIGNALS["Energy & Utilities"]` from `src/app.py`. -/
def energyInfo : DomainInfo :=
  { name := "Energy & Utilities",
    keywords := [
      "fault", "feeder", "substation", "relay", "transformer", "grid",
      "voltage", "frequency", "outage", "customers", "mw ", "kv ",
      "recloser", "breaker", "load shedding", "der", "scada",
      "solar", "wind", "turbine", "inverter", "battery storage",
      "dispatch", "generation", "transmission", "distribution",
      "peak demand", "power factor", "amps", "watt", "kilowatt"],
    label := "energy / utility" }

/-- Head of the keyword table (dict insertion order of `_DOMAIN_SIGNALS`). -/
def sigHead : DomainInfo := healthcareInfo

/-- Tail of the keyword table in dict insertion order. -/
def sigTail : List DomainInfo :=
  [industrialInfo, cybersecurityInfo, financialInfo, energyInfo]

/-- `_DOMAIN_SIGNALS` as an ordered association list (Python dicts iterate in
insertion order). -/
def domainSignals : List DomainInfo := sigHead :: sigTail

/-- `scores[domain]`: `sum(1 for kw in info["keywords"] if kw in text_lower)`.
The argument `textLower` is the already lower-cased text. -/
def hits (textLower : String) (info : DomainInfo) : Nat :=
  info.keywords.countP (fun kw => containsSub kw.data textLower.data)

/-- `best_match = max(scores, key=scores.get)` — the first domain in table
order attaining the maximal score. -/
def bestDomain (textLower : String) : DomainInfo :=
  argmaxFirst (hits textLower) sigHead sigTail

/-- Dict key lookup in `_DOMAIN_SIGNALS` (used by `scores.get(selected, 0)`). -/
def lookupDomain (sector : String) : Option DomainInfo :=
  domainSignals.find? (fun d => d.name == sector)

/-- The advisory message built by the f-string in `_detect_domain_mismatch`. -/
def advisoryMessage (best selectedInfo : DomainInfo) : String :=
  "This input looks like **" ++ best.label ++ "** data, " ++
  "but you have **" ++ selectedInfo.label ++ "** selected.\n\n" ++
  "**Suggested action →** Switch the **Domain Sector** in the sidebar to " ++
  "**" ++ best.name ++ "**, or load the correct synthetic example."

/-- The `KeyError` raised by `_DOMAIN_SIGNALS[selected_sector]` when the key
is not registered. -/
def keyError (k : String) : String := "KeyError: " ++ k

/-- `_detect_domain_mismatch(text, selected_sector)` (src/app.py lines
534-570).  `Except.ok (some msg)` is a returned advisory, `Except.ok none` is
the `None` ("no concern") return, and `Except.error` is the `KeyError` the
f-string raises when `selected_sector` is not a key of `_DOMAIN_SIGNALS`.
`3 * selectedHits ≤ 2 * bestHits` is the exact integer form of the float
comparison `best_hits >= selected_hits * 1.5`. -/
def detectDomainMismatch (text selectedSector : String) :
    Except String (Option String) :=
  let textLower := lowerStr text
  let best := bestDomain textLower
  let bestHits := hits textLower best
  if bestHits < 1 then Except.ok none
  else
    let selectedHits := (lookupDomain selectedSector).elim 0 (hits textLower)
    if best.name ≠ selectedSector ∧ 2 ≤ bestHits ∧
        (selectedHits = 0 ∨ 3 * selectedHits ≤ 2 * bestHits) then
      match lookupDomain selectedSector with
      | some info => Except.ok (some (advisoryMessage best info))
      | none => Except.error (keyError selectedSector)
    else
      Except.ok none

/-- Spec-side score (section 4.2 step 2 of the design document): the number of
*distinct* keywords of the domain that occur as a substring (list infix)
anywhere in the lower-cased text. -/
def specScore (d : DomainInfo) (text : String) : Nat :=
  (d.keywords.dedup.filter
    (fun kw => decide (kw.data <:+: (lowerStr text).data))).length

/-- Maximal score among the domains other than the selected one. -/
def maxOtherScore (textLower selectedSector : String) : Nat :=
  ((domainSignals.filter (fun d => d.name ≠ selectedSector)).map
    (hits textLower)).foldr max 0

/-! ### Schema registry

Each Pydantic `BaseModel` of `src/app.py` becomes an ordered list of named
fields; a `Literal[...]` annotation becomes `FieldKind.enum` carrying the
declared allowed values in order. -/

/-- Field kinds appearing in the five schemas: `str`, `float`, `int`,
`List[str]` and `Literal[...]` enumerations. -/
inductive FieldKind where
  | text
  | floatNum
  | intNum
  | strList
  | enum (allowed : List String)
deriving DecidableEq

/-- One named field of a schema. -/
structure SchemaField where
  name : String
  kind : FieldKind
deriving DecidableEq

/-- `ClinicalSchema` (src/app.py lines 207-217). -/
def ClinicalSchema : List SchemaField :=
  [⟨"triage_priority", FieldKind.enum ["Critical", "Urgent", "Routine"]⟩,
   ⟨"esi_acuity_level", FieldKind.enum ["1", "2", "3", "4", "5"]⟩,
   ⟨"diagnosis_impression", FieldKind.text⟩,
   ⟨"specialist_referral", FieldKind.text⟩,
   ⟨"vitals_extracted", FieldKind.strList⟩,
   ⟨"risk_factors", FieldKind.strList⟩,
   ⟨"medications_administered", FieldKind.strList⟩,
   ⟨"allergies_noted", FieldKind.strList⟩,
   ⟨"suggested_action", FieldKind.text⟩,
   ⟨"disposition",
     FieldKind.enum ["Admit ICU", "Admit Floor", "Observation", "Discharge"]⟩]

/-- `IndustrialSchema` (src/app.py lines 220-229). -/
def IndustrialSchema : List SchemaField :=
  [⟨"severity_level", FieldKind.enum ["Critical", "Warning", "Info"]⟩,
   ⟨"affected_component", FieldKind.text⟩,
   ⟨"failure_probability_percent", FieldKind.floatNum⟩,
   ⟨"sensor_readings", FieldKind.strList⟩,
   ⟨"maintenance_action",
     FieldKind.enum ["Immediate Shutdown", "Schedule Service", "Monitor"]⟩,
   ⟨"safety_risk", FieldKind.enum ["High", "Medium", "Low"]⟩,
   ⟨"estimated_downtime_hours", FieldKind.floatNum⟩,
   ⟨"parts_required", FieldKind.strList⟩,
   ⟨"root_cause_hypothesis", FieldKind.text⟩]

/-- `CybersecuritySchema` (src/app.py lines 232-242). -/
def CybersecuritySchema : List SchemaField :=
  [⟨"threat_level", FieldKind.enum ["Critical", "High", "Medium", "Low"]⟩,
   ⟨"attack_vector", FieldKind.text⟩,
   ⟨"mitre_attack_techniques", FieldKind.strList⟩,
   ⟨"affected_assets", FieldKind.strList⟩,
   ⟨"indicators_of_compromise", FieldKind.strList⟩,
   ⟨"data_at_risk", FieldKind.text⟩,
   ⟨"urgency_window", FieldKind.enum ["Minutes", "Hours", "Days"]⟩,
   ⟨"containment_steps", FieldKind.strList⟩,
   ⟨"recommended_response",
     FieldKind.enum ["Isolate & Investigate", "Block & Monitor", "Log & Review"]⟩,
   ⟨"threat_hypothesis", FieldKind.text⟩]

/-- `FinancialSchema` (src/app.py lines 245-255). -/
def FinancialSchema : List SchemaField :=
  [⟨"risk_rating", FieldKind.enum ["Critical", "Elevated", "Normal"]⟩,
   ⟨"transaction_type", FieldKind.text⟩,
   ⟨"entities_involved", FieldKind.strList⟩,
   ⟨"flagged_anomalies", FieldKind.strList⟩,
   ⟨"amount_at_risk_usd", FieldKind.floatNum⟩,
   ⟨"jurisdiction_risk", FieldKind.text⟩,
   ⟨"regulatory_flags", FieldKind.strList⟩,
   ⟨"escalation_path", FieldKind.text⟩,
   ⟨"recommended_action",
     FieldKind.enum ["Freeze Account", "Enhanced Review", "Clear Transaction"]⟩,
   ⟨"fraud_hypothesis", FieldKind.text⟩]

/-- `EnergySchema` (src/app.py lines 258-268). -/
def EnergySchema : List SchemaField :=
  [⟨"alert_priority", FieldKind.enum ["Emergency", "Warning", "Advisory"]⟩,
   ⟨"affected_system", FieldKind.text⟩,
   ⟨"grid_impact_mw", FieldKind.floatNum⟩,
   ⟨"customers_affected", FieldKind.intNum⟩,
   ⟨"fault_indicators", FieldKind.strList⟩,
   ⟨"weather_factor", FieldKind.text⟩,
   ⟨"safety_hazards", FieldKind.strList⟩,
   ⟨"estimated_restoration_hours", FieldKind.floatNum⟩,
   ⟨"recommended_action",
     FieldKind.enum ["Emergency Dispatch", "Schedule Inspection", "Continue Monitoring"]⟩,
   ⟨"root_cause_hypothesis", FieldKind.text⟩]

/-- `SECTOR_CONFIG`'s sector → schema association (src/app.py lines 386-442),
in insertion order. -/
def schemaRegistry : List (String × List SchemaField) :=
  [("Healthcare (HCLS)", ClinicalSchema),
   ("Industrial (Manufacturing)", IndustrialSchema),
   ("Cybersecurity (SecOps)", CybersecuritySchema),
   ("Financial Services (FinOps)", FinancialSchema),
   ("Energy & Utilities", EnergySchema)]

/-! ### Orchestration (`analyze_clicked` handler, src/app.py lines 747-832)

The handler's session state (`st.session_state`), its possible outcomes, and
the external calls it performs are modelled explicitly.  The external model
call with its SDK-side parsing/validation is an opaque collaborator, so its
outcome is an input (`ModelResponse`).  The list of `Event`s records which
external collaborators an attempt actually invoked, in order. -/

/-- A validated triage record (the field-name → value mapping); its content
is opaque to the orchestration logic verified here. -/
abbrev Record := List (String × String)

/-- Outcome of the external model call plus the SDK/manual parse-validate
step, as observed by the `try` block of the handler. -/
inductive ModelResponse where
  | ok (rec : Record)
  | badJson (raw : String)
  | badSchema
  | transport (msg : String)
deriving DecidableEq

/-- The session state touched by the handler: `st.session_state.credits`,
`triage_history` (abstracted to the sector of each completed run),
`last_result` and `last_sector`. -/
structure Session where
  credits : Int
  history : List String
  lastResult : Option Record
  lastSector : Option String
deriving DecidableEq

/-- External collaborators an attempt can invoke: the mismatch matcher and
the generative-model call. -/
inductive Event where
  | matcherRun
  | modelCall
deriving DecidableEq

/-- Terminal outcome of one analysis attempt. -/
inductive Outcome where
  | emptyInput
  | quotaExhausted
  | advisory (msg : String)
  | success (rec : Record)
  | jsonError (raw : String)
  | schemaError
  | apiError (msg : String)
  | pyCrash (msg : String)
deriving DecidableEq

/-- Whether an outcome is a fully validated success. -/
def Outcome.isSuccess : Outcome → Bool
  | Outcome.success _ => true
  | _ => false

/-- The advisory text carried by an outcome, when it is an advisory. -/
def Outcome.advisoryText : Outcome → Option String
  | Outcome.advisory m => some m
  | _ => none

/-- The `analyze_clicked` handler (src/app.py lines 747-832): empty-input
gate (`not raw_input or not raw_input.strip()`), quota gate
(`st.session_state.credits <= 0`), mismatch matcher gate, then the model
call; a credit is deducted and session results recorded only on the
schema-validated success path.  Returns the new session state, the outcome
and the trace of external collaborators invoked. -/
def analyzeClicked (sess : Session) (rawInput sector : String)
    (resp : ModelResponse) : Session × Outcome × List Event :=
  if pyStrip rawInput = "" then
    (sess, Outcome.emptyInput, [])
  else if sess.credits ≤ 0 then
    (sess, Outcome.quotaExhausted, [])
  else
    match detectDomainMismatch rawInput sector with
    | Except.error e => (sess, Outcome.pyCrash e, [Event.matcherRun])
    | Except.ok (some m) => (sess, Outcome.advisory m, [Event.matcherRun])
    | Except.ok none =>
      match resp with
      | ModelResponse.ok rec =>
          ({ credits := sess.credits - 1,
             history := sess.history ++ [sector],
             lastResult := some rec,
             lastSector := some sector },
           Outcome.success rec, [Event.matcherRun, Event.modelCall])
      | ModelResponse.badJson raw =>
          (sess, Outcome.jsonError raw, [Event.matcherRun, Event.modelCall])
      | ModelResponse.badSchema =>
          (sess, Outcome.schemaError, [Event.matcherRun, Event.modelCall])
      | ModelResponse.transport msg =>
          (sess, Outcome.apiError msg, [Event.matcherRun, Event.modelCall])

/-! ### Helper lemmas -/

/-- `containsSub` decides list-infix (substring) containment. -/
theorem containsSub_infix_iff (ns l : List Char) :
    containsSub ns l = true ↔ ns <:+: l := by
  induction l with
  | nil =>
    rw [containsSub, List.isEmpty_iff, List.infix_nil]
  | cons c cs ih =>
    rw [containsSub, Bool.or_eq_true, List.isPrefixOf_iff_prefix, ih,
      List.infix_cons_iff]

/-- `containsSub` as the decision procedure for the infix relation. -/
theorem containsSub_eq_decide (ns l : List Char) :
    containsSub ns l = decide (ns <:+: l) := by
  by_cases h : ns <:+: l
  · rw [(containsSub_infix_iff ns l).mpr h, decide_eq_true h]
  · rw [decide_eq_false h]
    exact Bool.eq_false_iff.mpr (fun hc => h ((containsSub_infix_iff ns l).mp hc))

/-- The first-maximum fold returns an element of the scanned list. -/
theorem argmaxFirst_mem {α : Type} (f : α → Nat) (a : α) (l : List α) :
    argmaxFirst f a l ∈ a :: l := by
  induction l generalizing a with
  | nil => rw [argmaxFirst]; exact List.mem_cons_self _ _
  | cons x xs ih =>
    rw [argmaxFirst]
    rcases List.mem_cons.mp (ih (if f a < f x then x else a)) with h | h
    · rw [h]
      split_ifs
      · exact List.mem_cons_of_mem _ (List.mem_cons_self _ _)
      · exact List.mem_cons_self _ _
    · exact List.mem_cons_of_mem _ (List.mem_cons_of_mem _ h)

/-- The first-maximum fold attains the maximal score of the scanned list. -/
theorem le_argmaxFirst {α : Type} (f : α → Nat) (a : α) (l : List α) :
    ∀ y ∈ a :: l, f y ≤ f (argmaxFirst f a l) := by
  induction l generalizing a with
  | nil =>
    intro y hy
    rw [List.mem_singleton] at hy
    subst hy
    rw [argmaxFirst]
  | cons x xs ih =>
    intro y hy
    rw [argmaxFirst]
    have key : f y ≤ f (if f a < f x then x else a) ∨ y ∈ xs := by
      rcases List.mem_cons.mp hy with rfl | hy'
      · left; split_ifs with h <;> omega
      · rcases List.mem_cons.mp hy' with rfl | hy''
        · left; split_ifs with h <;> omega
        · right; exact hy''
    rcases key with hk | hk
    · exact le_trans hk (ih _ _ (List.mem_cons_self _ _))
    · exact ih _ _ (List.mem_cons_of_mem _ hk)

/-- Ties go to the earlier element: the first-maximum fold returns exactly the
first element of the scanned list whose score equals the maximum. -/
theorem find?_argmaxFirst {α : Type} (f : α → Nat) (a : α) (l : List α) :
    (a :: l).find? (fun y => f y == f (argmaxFirst f a l)) =
      some (argmaxFirst f a l) := by
  induction l generalizing a with
  | nil =>
    rw [argmaxFirst, List.find?_cons_of_pos _ (by simp)]
  | cons x xs ih =>
    rw [argmaxFirst]
    by_cases h : f a < f x
    · rw [if_pos h]
      have hlt : f a < f (argmaxFirst f x xs) :=
        lt_of_lt_of_le h (le_argmaxFirst f x xs x (List.mem_cons_self _ _))
      rw [List.find?_cons_of_neg _ (by simpa using Nat.ne_of_lt hlt)]
      exact ih x
    · rw [if_neg h]
      have ha := ih a
      by_cases hpa : f a = f (argmaxFirst f a xs)
      · have hfr : List.find? (fun y => f y == f (argmaxFirst f a xs)) (a :: xs) =
            some a := List.find?_cons_of_pos _ (by simpa using hpa)
        have heq : a = argmaxFirst f a xs := by
          have := hfr.symm.trans ha
          exact Option.some.inj this
        rw [List.find?_cons_of_pos _ (by simpa using hpa), ← heq]
      · have hlt : f a < f (argmaxFirst f a xs) :=
          lt_of_le_of_ne
            (le_argmaxFirst f a xs a (List.mem_cons_self _ _)) hpa
        have hx : f x < f (argmaxFirst f a xs) :=
          lt_of_le_of_lt (Nat.le_of_not_lt h) hlt
        rw [List.find?_cons_of_neg _ (by simpa using hpa),
          List.find?_cons_of_neg _ (by simpa using Nat.ne_of_lt hx)]
        rw [List.find?_cons_of_neg _ (by simpa using hpa)] at ha
        exact ha

/-- The best-scoring domain is one of the registered domains. -/
theorem bestDomain_mem (textLower : String) :
    bestDomain textLower ∈ domainSignals :=
  argmaxFirst_mem (hits textLower) sigHead sigTail

/-- The best-scoring domain's score bounds every registered domain's score. -/
theorem hits_le_bestDomain (textLower : String) (d : DomainInfo)
    (hd : d ∈ domainSignals) :
    hits textLower d ≤ hits textLower (bestDomain textLower) :=
  le_argmaxFirst (hits textLower) sigHead sigTail d hd

/-- Every member of a list of naturals is bounded by its `foldr max 0`. -/
theorem le_foldr_max (l : List Nat) (a : Nat) (h : a ∈ l) :
    a ≤ l.foldr max 0 := by
  induction l with
  | nil => cases h
  | cons x xs ih =>
    rcases List.mem_cons.mp h with rfl | h'
    · exact le_max_left _ _
    · exact le_trans (ih h') (le_max_right _ _)

/-- Any registered domain other than the selected one scores at most
`maxOtherScore`. -/
theorem hits_le_maxOtherScore (textLower s : String) (d : DomainInfo)
    (hd : d ∈ domainSignals) (hne : d.name ≠ s) :
    hits textLower d ≤ maxOtherScore textLower s := by
  apply le_foldr_max
  exact List.mem_map_of_mem _ (List.mem_filter.mpr ⟨hd, by simpa using hne⟩)

/-- Characterization of `detectDomainMismatch` for a registered selected
sector: the advisory is returned exactly when the condition of
src/app.py lines 557-561 holds, and `None` is returned otherwise. -/
theorem detect_spec (text s : String) (info : DomainInfo)
    (h : lookupDomain s = some info) :
    detectDomainMismatch text s =
      (if (bestDomain (lowerStr text)).name ≠ s ∧
          2 ≤ hits (lowerStr text) (bestDomain (lowerStr text)) ∧
          (hits (lowerStr text) info = 0 ∨
            3 * hits (lowerStr text) info ≤
              2 * hits (lowerStr text) (bestDomain (lowerStr text)))
        then Except.ok (some (advisoryMessage (bestDomain (lowerStr text)) info))
        else Except.ok none) := by
  simp only [detectDomainMismatch, h, Option.elim]
  split_ifs with h1 h2 h3
  · exact absurd h2.2.1 (by omega)
  · rfl
  · rfl
  · rfl

/-- Characterization of `detectDomainMismatch` for an unregistered selected
sector: `None` when the best score is below 2, the `KeyError` from the
f-string's table lookup otherwise. -/
theorem detect_unknown (text s : String) (h : lookupDomain s = none) :
    detectDomainMismatch text s =
      (if 2 ≤ hits (lowerStr text) (bestDomain (lowerStr text))
        then Except.error (keyError s)
        else Except.ok none) := by
  have hne : (bestDomain (lowerStr text)).name ≠ s := by
    have := List.find?_eq_none.mp h _ (bestDomain_mem (lowerStr text))
    simpa using this
  by_cases hb : 2 ≤ hits (lowerStr text) (bestDomain (lowerStr text))
  · rw [if_pos hb]
    simp only [detectDomainMismatch, h, Option.elim]
    split_ifs with g1 g2
    · exact absurd hb (by omega)
    · rfl
    · exact absurd ⟨hne, hb, Or.inl trivial⟩ g2
  · rw [if_neg hb]
    simp only [detectDomainMismatch, h, Option.elim]
    split_ifs with g1 g2
    · rfl
    · exact absurd g2.2.1 hb
    · rfl

/-! ### Claims -/

/-- C1: for every input text and every selected domain registered in the
keyword table, `_detect_domain_mismatch` returns the advisory naming the
best-scoring domain `best` if and only if `best != selected`,
`score(best) >= 2`, and (`score(selected) == 0` or
`score(best) >= 1.5 * score(selected)`, stated exactly as
`3 * score(selected) <= 2 * score(best)`); in every other case it returns
`None` ("no concern"). -/
theorem C1_advisory_iff (text s : String) (info : DomainInfo)
    (h : lookupDomain s = some info) :
    detectDomainMismatch text s =
      (if (bestDomain (lowerStr text)).name ≠ s ∧
          2 ≤ hits (lowerStr text) (bestDomain (lowerStr text)) ∧
          (hits (lowerStr text) info = 0 ∨
            3 * hits (lowerStr text) info ≤
              2 * hits (lowerStr text) (bestDomain (lowerStr text)))
        then Except.ok (some (advisoryMessage (bestDomain (lowerStr text)) info))
        else Except.ok none) :=
  detect_spec text s info h

/-- C1 witness: on a clinical text with three healthcare keyword hits and no
industrial hits, selecting the industrial sector yields the advisory naming
healthcare. -/
theorem C1_advisory_iff_witness :
    detectDomainMismatch "patient troponin ecg" "Industrial (Manufacturing)" =
      Except.ok (some (advisoryMessage healthcareInfo industrialInfo)) := by
  rw [C1_advisory_iff "patient troponin ecg" "Industrial (Manufacturing)"
    industrialInfo rfl]
  rfl

/-- C3 counterexample: at the exact ratio boundary
`score(best) = 1.5 * score(selected)` — selected Healthcare scores 2
("patient", "nurse") while Industrial scores 3 ("vibration", "bearing",
"sensor") — the matcher raises the advisory, contradicting the claim that no
advisory is raised when the best other score is equal to or within 1.5× of
the selected score. -/
theorem C3_counterexample :
    hits (lowerStr "patient nurse vibration bearing sensor") healthcareInfo
        = 2 ∧
    hits (lowerStr "patient nurse vibration bearing sensor") industrialInfo
        = 3 ∧
    detectDomainMismatch "patient nurse vibration bearing sensor"
        "Healthcare (HCLS)" =
      Except.ok (some (advisoryMessage industrialInfo healthcareInfo)) :=
  ⟨rfl, rfl, rfl⟩

/-- C3 (amended): for every text and registered selected domain with
`score(selected) >= 1`, if every *other* domain's score is strictly within
1.5× of the selected score (`2 * maxOther < 3 * score(selected)`), the
matcher returns "no concern"; at the exact boundary
`score(best) = 1.5 * score(selected)` the advisory fires instead (see the
counterexample). -/
theorem C3_within_ratio_no_advisory (text s : String) (info : DomainInfo)
    (h : lookupDomain s = some info)
    (h1 : 1 ≤ hits (lowerStr text) info)
    (h2 : 2 * maxOtherScore (lowerStr text) s < 3 * hits (lowerStr text) info) :
    detectDomainMismatch text s = Except.ok none := by
  rw [detect_spec text s info h, if_neg]
  rintro ⟨hne, hb, hsel | hle⟩
  · omega
  · have := hits_le_maxOtherScore (lowerStr text) s _
      (bestDomain_mem (lowerStr text)) hne
    omega

/-- C3 amended-claim witness: Healthcare selected and scoring 2 on
"patient nurse" while every other domain scores 0. -/
theorem C3_within_ratio_no_advisory_witness :
    detectDomainMismatch "patient nurse" "Healthcare (HCLS)" =
      Except.ok none := by
  have e1 : hits (lowerStr "patient nurse") healthcareInfo = 2 := rfl
  have e2 : maxOtherScore (lowerStr "patient nurse") "Healthcare (HCLS)" = 0 :=
    rfl
  exact C3_within_ratio_no_advisory "patient nurse" "Healthcare (HCLS)"
    healthcareInfo rfl (by rw [e1]; omega) (by rw [e1, e2]; omega)

/-- C4: if the text matches zero keywords of every registered domain, the
matcher returns "no concern" for any selected sector — it never blocks
without signal. -/
theorem C4_no_signal_no_block (text s : String)
    (h : ∀ d ∈ domainSignals, hits (lowerStr text) d = 0) :
    detectDomainMismatch text s = Except.ok none := by
  have hb : hits (lowerStr text) (bestDomain (lowerStr text)) = 0 :=
    h _ (bestDomain_mem (lowerStr text))
  simp only [detectDomainMismatch]
  rw [if_pos (by omega)]

/-- C4 witness: the empty text scores 0 everywhere and passes through. -/
theorem C4_no_signal_no_block_witness :
    detectDomainMismatch "" "Healthcare (HCLS)" = Except.ok none := by
  have hall : domainSignals.all (fun d => hits (lowerStr "") d == 0) = true :=
    rfl
  refine C4_no_signal_no_block "" "Healthcare (HCLS)" ?_
  intro d hd
  simpa using List.all_eq_true.mp hall d hd

/-- C6: for every registered domain and every text, the domain's score is
the number of *distinct* keywords of its keyword set that occur as a
substring (list infix) anywhere in the lower-cased text: the keyword lists
are duplicate-free, each keyword contributes at most once (the score is
bounded by the keyword-set size), and matching is plain substring
containment on the lower-cased text — no token or word-boundary structure. -/
theorem C6_score_is_distinct_substring_count (d : DomainInfo)
    (hd : d ∈ domainSignals) (text : String) :
    d.keywords.Nodup ∧
    hits (lowerStr text) d = specScore d text ∧
    specScore d text ≤ d.keywords.length := by
  have hnd : d.keywords.Nodup := by
    have hd' := hd
    simp only [domainSignals, sigHead, sigTail, List.mem_cons,
      List.not_mem_nil, or_false] at hd'
    rcases hd' with rfl | rfl | rfl | rfl | rfl <;>
      simp [healthcareInfo, industrialInfo, cybersecurityInfo,
        financialInfo, energyInfo, List.nodup_cons]
  have hfilter : hits (lowerStr text) d = specScore d text := by
    simp only [hits, specScore, List.dedup_eq_self.mpr hnd,
      List.countP_eq_length_filter]
    congr 1
    apply List.filter_congr
    intro kw _
    exact containsSub_eq_decide kw.data (lowerStr text).data
  refine ⟨hnd, hfilter, ?_⟩
  calc specScore d text
      ≤ d.keywords.dedup.length := List.length_filter_le _ _
    _ = d.keywords.length := by rw [List.dedup_eq_self.mpr hnd]

/-- C6 witness: the healthcare score of a concrete note equals the distinct
substring count and is bounded by the keyword-set size. -/
theorem C6_score_is_distinct_substring_count_witness :
    healthcareInfo.keywords.Nodup ∧
    hits (lowerStr "Patient reports chest pain, BP 88/54") healthcareInfo =
      specScore healthcareInfo "Patient reports chest pain, BP 88/54" ∧
    specScore healthcareInfo "Patient reports chest pain, BP 88/54" ≤
      healthcareInfo.keywords.length :=
  C6_score_is_distinct_substring_count healthcareInfo
    (List.mem_cons_self _ _) "Patient reports chest pain, BP 88/54"

/-- C7: `best` is the first domain in table (insertion) order attaining the
maximal score — searching the ordered table for a maximal-score entry finds
exactly `bestDomain` — and every advisory the matcher returns names
`bestDomain` (its message is built from `bestDomain`'s registry entry). -/
theorem C7_tie_break_first (text : String) :
    domainSignals.find?
        (fun d => hits (lowerStr text) d ==
          hits (lowerStr text) (bestDomain (lowerStr text))) =
      some (bestDomain (lowerStr text)) ∧
    ∀ s info m, lookupDomain s = some info →
      detectDomainMismatch text s = Except.ok (some m) →
      m = advisoryMessage (bestDomain (lowerStr text)) info := by
  constructor
  · exact find?_argmaxFirst (hits (lowerStr text)) sigHead sigTail
  · intro s info m h hm
    rw [detect_spec text s info h] at hm
    split_ifs at hm with hc
    · simp only [Except.ok.injEq, Option.some.injEq] at hm
      exact hm.symm
    · simp at hm

/-- C7 witness: on "patient vibration" the healthcare and industrial domains
tie at score 1 and the search returns the earlier-registered healthcare
entry; and a concrete advisory names the best-scoring domain. -/
theorem C7_tie_break_first_witness :
    domainSignals.find?
        (fun d => hits (lowerStr "patient vibration") d ==
          hits (lowerStr "patient vibration")
            (bestDomain (lowerStr "patient vibration"))) =
      some healthcareInfo ∧
    advisoryMessage healthcareInfo energyInfo =
      advisoryMessage (bestDomain (lowerStr "patient nurse troponin"))
        energyInfo := by
  constructor
  · rw [(C7_tie_break_first "patient vibration").1]
    rfl
  · exact (C7_tie_break_first "patient nurse troponin").2 "Energy & Utilities"
      energyInfo (advisoryMessage healthcareInfo energyInfo) rfl rfl

/-- C10 counterexample: with an unregistered selected sector and a text
whose best score reaches 2, the matcher does not return an advisory naming
the best domain — the f-string's keyword-table lookup raises `KeyError`, so
the function is not total on unknown sectors. -/
theorem C10_counterexample :
    detectDomainMismatch "patient troponin nurse" "Bogus" =
      Except.error (keyError "Bogus") ∧
    ∀ v, detectDomainMismatch "patient troponin nurse" "Bogus" ≠
      Except.ok v := by
  have e : detectDomainMismatch "patient troponin nurse" "Bogus" =
      Except.error (keyError "Bogus") := rfl
  exact ⟨e, fun v h => Except.noConfusion (e.symm.trans h)⟩

/-- C10 (amended): when the selected sector is not a key of the keyword
table, the matcher treats the selected score as 0 and returns "no concern"
whenever the best domain's score is below 2; but whenever the best domain's
score is at least 2 it raises `KeyError` while formatting the advisory
instead of returning it. -/
theorem C10_unknown_sector (text s : String) (h : lookupDomain s = none) :
    (hits (lowerStr text) (bestDomain (lowerStr text)) < 2 →
      detectDomainMismatch text s = Except.ok none) ∧
    (2 ≤ hits (lowerStr text) (bestDomain (lowerStr text)) →
      detectDomainMismatch text s = Except.error (keyError s)) := by
  rw [detect_unknown text s h]
  constructor
  · intro hb
    rw [if_neg (by omega)]
  · intro hb
    rw [if_pos hb]

/-- C10 amended-claim witness: an unregistered sector passes through on a
zero-signal text and crashes on a strong-signal text. -/
theorem C10_unknown_sector_witness :
    detectDomainMismatch "zzz" "NoSuchDomain" = Except.ok none ∧
    detectDomainMismatch "patient troponin nurse" "NoSuchDomain" =
      Except.error (keyError "NoSuchDomain") := by
  constructor
  · have e : hits (lowerStr "zzz") (bestDomain (lowerStr "zzz")) = 0 := rfl
    exact (C10_unknown_sector "zzz" "NoSuchDomain" rfl).1 (by rw [e]; omega)
  · have e : hits (lowerStr "patient troponin nurse")
        (bestDomain (lowerStr "patient troponin nurse")) = 3 := rfl
    exact (C10_unknown_sector "patient troponin nurse" "NoSuchDomain" rfl).2
      (by rw [e]; omega)

/-- Executable well-formedness check for one schema field: an enumeration
field must carry a non-empty, duplicate-free allowed-value list. -/
def enumFieldOk (fld : SchemaField) : Bool :=
  match fld.kind with
  | FieldKind.enum vals => !vals.isEmpty && decide vals.Nodup
  | _ => true

/-- C2: per analysis attempt the session credit counter is decremented by
exactly one if and only if the attempt produces a schema-validated success;
on every other outcome it is left unchanged, and it never increases. -/
theorem C2_quota_decrement (sess : Session) (text sector : String)
    (resp : ModelResponse) :
    ((analyzeClicked sess text sector resp).1.credits = sess.credits - 1 ↔
      Outcome.isSuccess (analyzeClicked sess text sector resp).2.1 = true) ∧
    (Outcome.isSuccess (analyzeClicked sess text sector resp).2.1 = false →
      (analyzeClicked sess text sector resp).1.credits = sess.credits) ∧
    (analyzeClicked sess text sector resp).1.credits ≤ sess.credits := by
  unfold analyzeClicked
  split_ifs with h1 h2
  · simp [Outcome.isSuccess]
    omega
  · simp [Outcome.isSuccess]
    omega
  · cases hdet : detectDomainMismatch text sector with
    | error e =>
      simp [hdet, Outcome.isSuccess]
      omega
    | ok o =>
      cases o with
      | some m =>
        simp [hdet, Outcome.isSuccess]
        omega
      | none =>
        simp only [hdet]
        cases resp <;> simp [Outcome.isSuccess] <;> omega

/-- C2 witness: a validated success on a clean clinical note costs exactly
one credit. -/
theorem C2_quota_decrement_witness :
    (analyzeClicked ⟨3, [], none, none⟩ "patient nurse" "Healthcare (HCLS)"
        (ModelResponse.ok [])).1.credits = (3 : Int) - 1 :=
  (C2_quota_decrement ⟨3, [], none, none⟩ "patient nurse" "Healthcare (HCLS)"
    (ModelResponse.ok [])).1.mpr rfl

/-- C5: the attempt's gates run in order, stopping at the first failure:
empty text (after stripping) is rejected as empty input — not as exhausted
quota, even with zero credits — with no matcher run, no model call and no
state change; then zero quota rejects before the matcher and model; then a
matcher advisory aborts before the model call without consuming quota. -/
theorem C5_gate_order (sess : Session) (text sector : String)
    (resp : ModelResponse) :
    (pyStrip text = "" →
      analyzeClicked sess text sector resp = (sess, Outcome.emptyInput, [])) ∧
    (pyStrip text ≠ "" → sess.credits ≤ 0 →
      analyzeClicked sess text sector resp =
        (sess, Outcome.quotaExhausted, [])) ∧
    (∀ m, pyStrip text ≠ "" → 0 < sess.credits →
      detectDomainMismatch text sector = Except.ok (some m) →
      analyzeClicked sess text sector resp =
        (sess, Outcome.advisory m, [Event.matcherRun])) := by
  refine ⟨fun h => ?_, fun h1 h2 => ?_, fun m h1 h2 h3 => ?_⟩
  · unfold analyzeClicked
    rw [if_pos h]
  · unfold analyzeClicked
    rw [if_neg h1, if_pos h2]
  · unfold analyzeClicked
    rw [if_neg h1, if_neg (show ¬sess.credits ≤ 0 by omega)]
    simp [h3]

/-- C5 witness: a whitespace-only text with zero credits is rejected as
empty input; non-empty text with zero credits as exhausted quota; and a
mismatched text with credits available is stopped by the matcher alone. -/
theorem C5_gate_order_witness :
    analyzeClicked ⟨0, [], none, none⟩ " " "Healthcare (HCLS)"
        ModelResponse.badSchema =
      (⟨0, [], none, none⟩, Outcome.emptyInput, []) ∧
    analyzeClicked ⟨0, [], none, none⟩ "patient" "Healthcare (HCLS)"
        ModelResponse.badSchema =
      (⟨0, [], none, none⟩, Outcome.quotaExhausted, []) ∧
    analyzeClicked ⟨5, [], none, none⟩
        "patient nurse vibration bearing sensor" "Healthcare (HCLS)"
        ModelResponse.badSchema =
      (⟨5, [], none, none⟩,
        Outcome.advisory (advisoryMessage industrialInfo healthcareInfo),
        [Event.matcherRun]) := by
  exact ⟨(C5_gate_order ⟨0, [], none, none⟩ " " "Healthcare (HCLS)"
      ModelResponse.badSchema).1 rfl,
    (C5_gate_order ⟨0, [], none, none⟩ "patient" "Healthcare (HCLS)"
      ModelResponse.badSchema).2.1 (of_decide_eq_false rfl) (le_refl 0),
    (C5_gate_order ⟨5, [], none, none⟩
      "patient nurse vibration bearing sensor" "Healthcare (HCLS)"
      ModelResponse.badSchema).2.2
      (advisoryMessage industrialInfo healthcareInfo)
      (of_decide_eq_false rfl) (of_decide_eq_true rfl) rfl⟩

/-- C8: the matcher is deterministic and side-effect-free: the advisory
verdict computed within the orchestration for a given (text, sector) pair is
identical across invocations regardless of the session state and of the
model collaborator's behaviour; and whenever the matcher returns an advisory
the attempt leaves the session unchanged and performs no model call. -/
theorem C8_matcher_pure (text sector : String) (sess₁ sess₂ : Session)
    (resp₁ resp₂ : ModelResponse) (h : pyStrip text ≠ "")
    (hc₁ : 0 < sess₁.credits) (hc₂ : 0 < sess₂.credits) :
    Outcome.advisoryText (analyzeClicked sess₁ text sector resp₁).2.1 =
      Outcome.advisoryText (analyzeClicked sess₂ text sector resp₂).2.1 ∧
    (∀ m, detectDomainMismatch text sector = Except.ok (some m) →
      analyzeClicked sess₁ text sector resp₁ =
        (sess₁, Outcome.advisory m, [Event.matcherRun])) := by
  constructor
  · unfold analyzeClicked
    rw [if_neg h, if_neg (show ¬sess₁.credits ≤ 0 by omega),
      if_neg h, if_neg (show ¬sess₂.credits ≤ 0 by omega)]
    cases hdet : detectDomainMismatch text sector with
    | error e => simp [hdet]
    | ok o =>
      cases o with
      | some m => simp [hdet]
      | none =>
        simp only [hdet]
        cases resp₁ <;> cases resp₂ <;> rfl
  · intro m hm
    unfold analyzeClicked
    rw [if_neg h, if_neg (show ¬sess₁.credits ≤ 0 by omega)]
    simp [hm]

/-- C8 witness: two sessions with different credit balances, histories and
model outcomes produce the identical advisory verdict on the same input, and
the advisory leaves the session untouched. -/
theorem C8_matcher_pure_witness :
    Outcome.advisoryText (analyzeClicked ⟨5, [], none, none⟩
        "patient nurse vibration bearing sensor" "Healthcare (HCLS)"
        (ModelResponse.ok [])).2.1 =
      Outcome.advisoryText (analyzeClicked ⟨7, ["x"], none, none⟩
        "patient nurse vibration bearing sensor" "Healthcare (HCLS)"
        ModelResponse.badSchema).2.1 ∧
    (∀ m, detectDomainMismatch "patient nurse vibration bearing sensor"
        "Healthcare (HCLS)" = Except.ok (some m) →
      analyzeClicked ⟨5, [], none, none⟩
        "patient nurse vibration bearing sensor" "Healthcare (HCLS)"
        (ModelResponse.ok []) =
      (⟨5, [], none, none⟩, Outcome.advisory m, [Event.matcherRun])) := by
  exact C8_matcher_pure "patient nurse vibration bearing sensor"
    "Healthcare (HCLS)" ⟨5, [], none, none⟩ ⟨7, ["x"], none, none⟩
    (ModelResponse.ok []) ModelResponse.badSchema
    (of_decide_eq_false rfl) (of_decide_eq_true rfl) (of_decide_eq_true rfl)

/-- C9: in every registered schema, every enumeration field's declared
allowed-value list is non-empty and contains no duplicates. -/
theorem C9_enum_fields_wellformed (p : String × List SchemaField)
    (hp : p ∈ schemaRegistry) (fld : SchemaField) (hf : fld ∈ p.2)
    (vals : List String) (hv : fld.kind = FieldKind.enum vals) :
    vals ≠ [] ∧ vals.Nodup := by
  have hcheck : schemaRegistry.all (fun q => q.2.all enumFieldOk) = true := rfl
  have h1 := List.all_eq_true.mp (List.all_eq_true.mp hcheck p hp) fld hf
  simp only [enumFieldOk, hv, Bool.and_eq_true, Bool.not_eq_true'] at h1
  refine ⟨fun hnil => ?_, of_decide_eq_true h1.2⟩
  subst hnil
  simp at h1

/-- C9 witness: the clinical triage-priority enumeration is non-empty and
duplicate-free. -/
theorem C9_enum_fields_wellformed_witness :
    (["Critical", "Urgent", "Routine"] : List String) ≠ [] ∧
    (["Critical", "Urgent", "Routine"] : List String).Nodup :=
  C9_enum_fields_wellformed ("Healthcare (HCLS)", ClinicalSchema)
    (List.mem_cons_self _ _)
    ⟨"triage_priority", FieldKind.enum ["Critical", "Urgent", "Routine"]⟩
    (List.mem_cons_self _ _) _ rfl

end VertexTriage
